import Mathlib

/-!
Verification of the weekly insights and support-suggestion engine of the
Bloom pregnancy-companion app (client/src/components/weekly-summary.tsx).

The TypeScript source is shallowly embedded: each TypeScript function of the
engine becomes a Lean definition of the same name, JavaScript strings become
Lean strings manipulated through structural char-list models of the relevant
String.prototype methods, JavaScript objects used as insertion-ordered maps
become association lists, and the stable Array.prototype.sort is modelled by
a stable insertion sort parameterised by the Boolean comparator.
-/

namespace Bloom

/-! ## JavaScript string method models

Structural-recursion models of the String.prototype methods used by the
engine (toLowerCase, trim, split(","), includes, charAt(0).toUpperCase() +
slice(1), length).  All inputs in this code base are ASCII, where these agree
with the JavaScript semantics. -/

def jsToLower (s : String) : String := String.mk (s.toList.map Char.toLower)

def jsTrim (s : String) : String :=
  String.mk (((s.toList.dropWhile Char.isWhitespace).reverse.dropWhile Char.isWhitespace).reverse)

def splitCommaAux : List Char → List Char → List String
  | [], acc => [String.mk acc.reverse]
  | c :: cs, acc =>
    if c = ',' then String.mk acc.reverse :: splitCommaAux cs []
    else splitCommaAux cs (c :: acc)

/-- Model of s.split(",") -/
def jsSplitComma (s : String) : List String := splitCommaAux s.toList []

def listPrefixAt : List Char → List Char → Bool
  | [], _ => true
  | _ :: _, [] => false
  | a :: as, b :: bs => a == b && listPrefixAt as bs

def listContainsSeq (needle : List Char) : List Char → Bool
  | [] => needle.isEmpty
  | c :: cs => listPrefixAt needle (c :: cs) || listContainsSeq needle cs

/-- Model of hay.includes(needle). -/
def strContains (hay needle : String) : Bool :=
  listContainsSeq needle.toList hay.toList

/-- Model of s.charAt(0).toUpperCase() + s.slice(1). -/
def capitalizeStr (s : String) : String :=
  match s.toList with
  | [] => ""
  | c :: cs => String.mk (c.toUpper :: cs)

/-- Model of s.length (code-unit count; ASCII inputs). -/
def strLen (s : String) : Nat := s.toList.length

/-! ## Stable sort model for Array.prototype.sort

JavaScript Array.prototype.sort is required to be stable; with a consistent
comparator c its output is the unique stable order in which a precedes b
whenever c(a,b) ≤ 0.  `jsSort le` computes exactly that order for the
Boolean relation `le a b` meaning "a may come before b"
(for a comparator (a,b) => a.k - b.k take le a b := a.k ≤ b.k;
for (a,b) => b.k - a.k take le a b := b.k ≤ a.k). -/

def jsInsert (le : α → α → Bool) (x : α) : List α → List α
  | [] => [x]
  | y :: ys => if le x y then x :: y :: ys else y :: jsInsert le x ys

def jsSort (le : α → α → Bool) : List α → List α
  | [] => []
  | x :: xs => jsInsert le x (jsSort le xs)

/-! ## Data model (weekly-summary.tsx)

Mood, Energy and Slot are the string enums of the source; counts are kept in
records with one field per enum value, in the JavaScript object insertion
order (happy, neutral, sad / high, medium, low / morning, evening, night),
which is also the Object.entries iteration order used for tie-breaking. -/

inductive Mood
  | happy
  | neutral
  | sad
deriving DecidableEq

inductive Energy
  | high
  | medium
  | low
deriving DecidableEq

inductive Slot
  | morning
  | evening
  | night
deriving DecidableEq

structure MoodCounts where
  happy : Nat
  neutral : Nat
  sad : Nat
deriving DecidableEq

structure EnergyCounts where
  high : Nat
  medium : Nat
  low : Nat
deriving DecidableEq

structure SlotCounts where
  morning : Nat
  evening : Nat
  night : Nat
deriving DecidableEq

/-- WeekStats of weekly-summary.tsx.  symptomCounts is the
Record&lt;string, number&gt; object, modelled as an insertion-ordered
association list. -/
structure WeekStats where
  totalCheckins : Nat
  moodCounts : MoodCounts
  dominantMood : Option Mood
  symptomCounts : List (String × Nat)
  topSymptoms : List String
  slotCounts : SlotCounts
  challengingSlot : Option Slot
  energyCounts : EnergyCounts
  hasEnergyData : Bool
  dominantEnergy : Option Energy
deriving DecidableEq

/-- One raw check-in record as consumed by analyzeWeekLogs (the fields the
function reads; each is optional free-form data, absent = undefined). -/
structure CheckinLog where
  mood : Option String
  symptoms : Option String
  slot : Option String
  time_of_day : Option String
  energy : Option String
deriving DecidableEq

/-! ## Week Aggregator: analyzeWeekLogs -/

/-- Model of the JavaScript expression a || b on optional strings
(undefined and the empty string are falsy). -/
def jsOrStr (a b : Option String) : Option String :=
  match a with
  | some s => if s = "" then b else some s
  | none => b

/-- Increment for symptomCounts[symptom] = (symptomCounts[symptom] || 0) + 1
on the insertion-ordered object model: an existing key is updated in place,
a new key is appended. -/
def bumpSymptom : List (String × Nat) → String → List (String × Nat)
  | [], s => [(s, 1)]
  | (k, c) :: rest, s =>
    if k = s then (k, c + 1) :: rest else (k, c) :: bumpSymptom rest s

/-- The symptom-splitting loop of analyzeWeekLogs:
String(log.symptoms).split(",").map(s => s.trim().toLowerCase()), with empty
fragments skipped. -/
def addSymptoms (m : List (String × Nat)) (raw : String) : List (String × Nat) :=
  ((jsSplitComma raw).map (fun s => jsToLower (jsTrim s))).foldl
    (fun acc s => if s = "" then acc else bumpSymptom acc s) m

def bumpMoodCounts (mc : MoodCounts) (m : String) : MoodCounts :=
  if m = "happy" then { mc with happy := mc.happy + 1 }
  else if m = "neutral" then { mc with neutral := mc.neutral + 1 }
  else if m = "sad" then { mc with sad := mc.sad + 1 }
  else mc

def bumpSlotCounts (sc : SlotCounts) (s : String) : SlotCounts :=
  if s = "morning" then { sc with morning := sc.morning + 1 }
  else if s = "evening" then { sc with evening := sc.evening + 1 }
  else if s = "night" then { sc with night := sc.night + 1 }
  else sc

def bumpEnergyCounts (ec : EnergyCounts) (e : String) : EnergyCounts :=
  if e = "high" then { ec with high := ec.high + 1 }
  else if e = "medium" then { ec with medium := ec.medium + 1 }
  else if e = "low" then { ec with low := ec.low + 1 }
  else ec

def isMoodKey (m : String) : Bool := m = "happy" || m = "neutral" || m = "sad"

def isSlotKey (s : String) : Bool := s = "morning" || s = "evening" || s = "night"

def isEnergyKey (e : String) : Bool := e = "high" || e = "medium" || e = "low"

/-- Mutable accumulator of the for-loop of analyzeWeekLogs. -/
structure AggState where
  moodCounts : MoodCounts
  symptomCounts : List (String × Nat)
  slotCounts : SlotCounts
  energyCounts : EnergyCounts
  hasEnergyData : Bool

/-- One iteration of the for-loop of analyzeWeekLogs. -/
def aggStep (st : AggState) (log : CheckinLog) : AggState :=
  let st1 :=
    match log.mood with
    | some m =>
      if m ≠ "" ∧ isMoodKey m = true then
        { st with moodCounts := bumpMoodCounts st.moodCounts m }
      else st
    | none => st
  let st2 :=
    match log.symptoms with
    | some raw =>
      if raw ≠ "" then
        { st1 with symptomCounts := addSymptoms st1.symptomCounts raw }
      else st1
    | none => st1
  let st3 :=
    match jsOrStr log.slot log.time_of_day with
    | some s =>
      if s ≠ "" ∧ isSlotKey s = true then
        { st2 with slotCounts := bumpSlotCounts st2.slotCounts s }
      else st2
    | none => st2
  match log.energy with
  | some e =>
    if e ≠ "" ∧ isEnergyKey e = true then
      { st3 with
        energyCounts := bumpEnergyCounts st3.energyCounts e
        hasEnergyData := true }
    else st3
  | none => st3

def initAggState : AggState :=
  ⟨⟨0, 0, 0⟩, [], ⟨0, 0, 0⟩, ⟨0, 0, 0⟩, false⟩

/-- Comparator model for .sort((a, b) => b[1] - a[1]): stable descending by
count. -/
def descByCount {κ : Type} (p q : κ × Nat) : Bool := decide (q.2 ≤ p.2)

/-- The dominant-value pipeline of analyzeWeekLogs:
Object.entries(counts).filter(count > 0).sort(b[1] - a[1])[0]?.[0] || null,
over an explicit entries list in object insertion order. -/
def dominantPick {κ : Type} (entries : List (κ × Nat)) : Option κ :=
  match (jsSort descByCount (entries.filter (fun p => decide (0 < p.2)))).head? with
  | some p => some p.1
  | none => none

def moodEntries (mc : MoodCounts) : List (Mood × Nat) :=
  [(Mood.happy, mc.happy), (Mood.neutral, mc.neutral), (Mood.sad, mc.sad)]

def energyEntries (ec : EnergyCounts) : List (Energy × Nat) :=
  [(Energy.high, ec.high), (Energy.medium, ec.medium), (Energy.low, ec.low)]

def slotEntries (sc : SlotCounts) : List (Slot × Nat) :=
  [(Slot.morning, sc.morning), (Slot.evening, sc.evening), (Slot.night, sc.night)]

/-- Sorted symptom entries: Object.entries(symptomCounts).sort(b[1] - a[1]). -/
def sortedSymptomEntries (m : List (String × Nat)) : List (String × Nat) :=
  jsSort descByCount m

/-- topSymptoms: sorted entries, top 3, display-capitalized names only. -/
def topSymptomsOf (m : List (String × Nat)) : List String :=
  ((sortedSymptomEntries m).take 3).map (fun p => capitalizeStr p.1)

def slotName : Slot → String
  | Slot.morning => "morning"
  | Slot.evening => "evening"
  | Slot.night => "night"

/-- Count of logs at a given slot with mood "sad"
(logs.filter(l => (l.slot || l.time_of_day) === slot && l.mood === "sad")). -/
def sadCountAt (logs : List CheckinLog) (s : Slot) : Nat :=
  (logs.filter
    (fun l => decide (jsOrStr l.slot l.time_of_day = some (slotName s)) &&
      decide (l.mood = some "sad"))).length

/-- challengingSlot: slots with count > 0, sorted descending by number of sad
check-ins in that slot, first one or null. -/
def challengingSlotOf (logs : List CheckinLog) (sc : SlotCounts) : Option Slot :=
  match (jsSort (fun p q => decide (sadCountAt logs q.1 ≤ sadCountAt logs p.1))
      ((slotEntries sc).filter (fun p => decide (0 < p.2)))).head? with
  | some p => some p.1
  | none => none

/-- analyzeWeekLogs of weekly-summary.tsx (lines 44-112). -/
def analyzeWeekLogs (logs : List CheckinLog) : WeekStats :=
  let st := logs.foldl aggStep initAggState
  { totalCheckins := logs.length
    moodCounts := st.moodCounts
    dominantMood := dominantPick (moodEntries st.moodCounts)
    symptomCounts := st.symptomCounts
    topSymptoms := topSymptomsOf st.symptomCounts
    slotCounts := st.slotCounts
    challengingSlot := challengingSlotOf logs st.slotCounts
    energyCounts := st.energyCounts
    hasEnergyData := st.hasEnergyData
    dominantEnergy :=
      if st.hasEnergyData = true then dominantPick (energyEntries st.energyCounts)
      else none }

/-! ## Symptom severity weighting (weekly-summary.tsx lines 522-705) -/

/-- SYMPTOM_WEIGHTS: Record&lt;string, SymptomSeverity&gt; in source insertion
order. -/
def SYMPTOM_WEIGHTS : List (String × Nat) :=
  [("cravings", 1),
   ("food cravings", 1),
   ("bloating", 1),
   ("gas", 1),
   ("mild headache", 1),
   ("mood swings", 1),
   ("frequent urination", 1),
   ("constipation", 1),
   ("acne", 1),
   ("dry skin", 1),
   ("runny nose", 1),
   ("congestion", 1),
   ("low energy", 1),
   ("nausea", 2),
   ("morning sickness", 2),
   ("heartburn", 2),
   ("acid reflux", 2),
   ("insomnia", 2),
   ("sleep issues", 2),
   ("sleep deprivation", 2),
   ("back pain", 2),
   ("backache", 2),
   ("headache", 2),
   ("headaches", 2),
   ("fatigue", 2),
   ("tired", 2),
   ("exhaustion", 2),
   ("anxiety", 2),
   ("hip pain", 2),
   ("leg cramps", 2),
   ("round ligament pain", 2),
   ("breast tenderness", 2),
   ("breast pain", 2),
   ("shortness of breath", 2),
   ("cramping", 2),
   ("cramps", 3),
   ("severe fatigue", 3),
   ("swelling", 3),
   ("edema", 3),
   ("severe nausea", 3),
   ("vomiting", 3),
   ("dizziness", 3),
   ("fainting", 3),
   ("pelvic pressure", 3),
   ("contractions", 3),
   ("braxton hicks", 3),
   ("sciatica", 3),
   ("migraines", 3)]

/-- RED_FLAG_SYMPTOMS of the source, in order. -/
def RED_FLAG_SYMPTOMS : List String :=
  ["bleeding",
   "spotting",
   "vaginal bleeding",
   "vision changes",
   "blurred vision",
   "severe headache",
   "severe abdominal pain",
   "chest pain",
   "difficulty breathing",
   "decreased fetal movement",
   "no fetal movement",
   "fluid leaking",
   "water breaking",
   "high fever",
   "severe swelling"]

/-- getSymptomWeight: exact lookup first, then first table key of length at
least 4 contained in the symptom, else default 1. -/
def getSymptomWeight (symptom : String) : Nat :=
  let lower := jsTrim (jsToLower symptom)
  match SYMPTOM_WEIGHTS.find? (fun p => p.1 == lower) with
  | some p => p.2
  | none =>
    match SYMPTOM_WEIGHTS.find?
        (fun p => decide (4 ≤ strLen p.1) && strContains lower p.1) with
    | some p => p.2
    | none => 1

/-- isRedFlagSymptom: the symptom contains some red-flag term of length at
least 5. -/
def isRedFlagSymptom (symptom : String) : Bool :=
  let lower := jsTrim (jsToLower symptom)
  RED_FLAG_SYMPTOMS.any (fun rf => decide (5 ≤ strLen rf) && strContains lower rf)

structure WeightedSymptom where
  symptom : String
  count : Nat
  weight : Nat
  score : Nat
deriving DecidableEq

inductive SeverityLevel
  | light
  | moderate
  | heavy
deriving DecidableEq

structure SymptomAnalysis where
  weightedSymptoms : List WeightedSymptom
  totalScore : Nat
  averageWeight : ℚ
  hasRedFlags : Bool
  redFlagSymptoms : List String
  severityLevel : SeverityLevel
deriving DecidableEq

/-- The severity step function applied to totalScore in
analyzeSymptomSeverity. -/
def severityLevelOfScore (totalScore : Nat) : SeverityLevel :=
  if totalScore ≤ 5 then SeverityLevel.light
  else if totalScore ≤ 12 then SeverityLevel.moderate
  else SeverityLevel.heavy

def mkWeighted (p : String × Nat) : WeightedSymptom :=
  ⟨p.1, p.2, getSymptomWeight p.1, getSymptomWeight p.1 * p.2⟩

/-- Comparator model for .sort((a, b) => b.score - a.score). -/
def descByScore (a b : WeightedSymptom) : Bool := decide (b.score ≤ a.score)

/-- analyzeSymptomSeverity of weekly-summary.tsx (lines 657-705).
topSymptoms entries are (symptom, count) pairs. -/
def analyzeSymptomSeverity (topSymptoms : List (String × Nat)) : SymptomAnalysis :=
  let redFlagSymptoms :=
    (topSymptoms.filter (fun p => isRedFlagSymptom p.1)).map (fun p => p.1)
  let weightedSymptoms := jsSort descByScore (topSymptoms.map mkWeighted)
  let totalScore : Nat := weightedSymptoms.foldl (fun sum s => sum + s.score) 0
  let totalCount : Nat := weightedSymptoms.foldl (fun sum s => sum + s.count) 0
  let sumWeightTimesCount : Nat :=
    weightedSymptoms.foldl (fun sum s => sum + s.weight * s.count) 0
  let averageWeight : ℚ :=
    if 0 < totalCount then (sumWeightTimesCount : ℚ) / (totalCount : ℚ) else 0
  { weightedSymptoms := weightedSymptoms
    totalScore := totalScore
    averageWeight := averageWeight
    hasRedFlags := decide (0 < redFlagSymptoms.length)
    redFlagSymptoms := redFlagSymptoms
    severityLevel := severityLevelOfScore totalScore }

/-! ## Trend Comparator: computeWeeklyTrends (lines 236-285)

PartnerInsightsDeltas is the interface of usePregnancyLogs.ts; the symptom
delta lists hold (symptom, delta-or-count) pairs, of which only the lengths
are read. -/

inductive TrendDirection
  | up
  | down
  | stable
deriving DecidableEq

structure WeeklyTrends where
  mood : TrendDirection
  energy : TrendDirection
  symptoms : TrendDirection
  overallWellbeing : TrendDirection
deriving DecidableEq

structure MoodDeltas where
  happy : Int
  neutral : Int
  sad : Int
deriving DecidableEq

structure EnergyDeltas where
  high : Int
  medium : Int
  low : Int
deriving DecidableEq

structure SymptomsDeltas where
  increased : List (String × Int)
  decreased : List (String × Int)
  new : List (String × Int)
  gone : List (String × Int)
deriving DecidableEq

structure PartnerInsightsDeltas where
  days_logged : Int
  mood : MoodDeltas
  energy : EnergyDeltas
  symptoms : SymptomsDeltas
deriving DecidableEq

/-- computeWeeklyTrends of weekly-summary.tsx (lines 258-285); null is
modelled by none. -/
def computeWeeklyTrends : Option PartnerInsightsDeltas → Option WeeklyTrends
  | none => none
  | some deltas =>
    let moodScore := deltas.mood.happy - deltas.mood.sad
    let moodTrend : TrendDirection :=
      if moodScore > 0 then TrendDirection.up
      else if moodScore < 0 then TrendDirection.down
      else TrendDirection.stable
    let energyScore := deltas.energy.high - deltas.energy.low
    let energyTrend : TrendDirection :=
      if energyScore > 0 then TrendDirection.up
      else if energyScore < 0 then TrendDirection.down
      else TrendDirection.stable
    let symptomsWorsened : Nat :=
      deltas.symptoms.increased.length + deltas.symptoms.new.length
    let symptomsImproved : Nat :=
      deltas.symptoms.decreased.length + deltas.symptoms.gone.length
    let symptomScore : Int := (symptomsImproved : Int) - (symptomsWorsened : Int)
    let symptomsTrend : TrendDirection :=
      if symptomScore > 0 then TrendDirection.up
      else if symptomScore < 0 then TrendDirection.down
      else TrendDirection.stable
    let overallScore : Int := moodScore + energyScore + symptomScore
    let overallTrend : TrendDirection :=
      if overallScore > 0 then TrendDirection.up
      else if overallScore < 0 then TrendDirection.down
      else TrendDirection.stable
    some ⟨moodTrend, energyTrend, symptomsTrend, overallTrend⟩

/-! ## Suggestion Generator: getSupportSuggestions (lines 707-1007)

A SupportSuggestion of the source is (icon, text, priority).  The icon is
presentation-only; the text is pool[dayOfWeek % pool.length] of one of the
SUGGESTION_POOLS.  A suggestion is therefore represented by the pool it was
drawn from, the selected variant index within that pool, and the priority.
The wall-clock day of week (new Date().getDay()) is passed in explicitly as
the `day` argument. -/

inductive PoolTag
  | lowEnergy
  | sadMood
  | nausea
  | fatigue
  | headache
  | backPain
  | insomnia
  | lowConsistency
  | trendWorsening
  | heavySymptomWeek
  | redFlag
  | trimester1
  | trimester2
  | trimester3
  | postpartumEarly
  | postpartumMid
  | postpartumGeneral
  | postpartumLowMood
  | appointment
  | general
deriving DecidableEq

/-- Number of pre-written variants in each SUGGESTION_POOLS entry. -/
def poolSize : PoolTag → Nat
  | PoolTag.lowEnergy => 3
  | PoolTag.sadMood => 3
  | PoolTag.nausea => 3
  | PoolTag.fatigue => 3
  | PoolTag.headache => 2
  | PoolTag.backPain => 2
  | PoolTag.insomnia => 2
  | PoolTag.lowConsistency => 2
  | PoolTag.trendWorsening => 2
  | PoolTag.heavySymptomWeek => 3
  | PoolTag.redFlag => 2
  | PoolTag.trimester1 => 2
  | PoolTag.trimester2 => 2
  | PoolTag.trimester3 => 2
  | PoolTag.postpartumEarly => 3
  | PoolTag.postpartumMid => 2
  | PoolTag.postpartumGeneral => 3
  | PoolTag.postpartumLowMood => 2
  | PoolTag.appointment => 2
  | PoolTag.general => 2

/-- pickFromPool: deterministic day-of-week rotation, as the chosen variant
index pool[dayOfWeek % pool.length]. -/
def pickFromPool (day : Nat) (tag : PoolTag) : Nat := day % poolSize tag

structure Suggestion where
  tag : PoolTag
  variant : Nat
  priority : ℚ
deriving DecidableEq

def mkSuggestion (day : Nat) (tag : PoolTag) (priority : ℚ) : Suggestion :=
  ⟨tag, pickFromPool day tag, priority⟩

inductive AppMode
  | pregnancy
  | infancy
deriving DecidableEq

inductive Trimester
  | t1
  | t2
  | t3
deriving DecidableEq

/-- SuggestionContext of weekly-summary.tsx (lines 805-814); optional fields
are Option. -/
structure SuggestionContext where
  stats : WeekStats
  trimester : Trimester
  hasUpcomingAppointment : Bool
  deltas : Option PartnerInsightsDeltas
  daysLogged : Option Nat
  rawSymptoms : Option (List (String × Nat))
  appMode : Option AppMode
  postpartumWeek : Option Nat
deriving DecidableEq

/-- The symptomAnalysis computed at the top of getSupportSuggestions:
rawSymptoms if provided, else stats.topSymptoms each with count 1. -/
def ctxAnalysis (ctx : SuggestionContext) : SymptomAnalysis :=
  match ctx.rawSymptoms with
  | some rs => analyzeSymptomSeverity rs
  | none => analyzeSymptomSeverity (ctx.stats.topSymptoms.map (fun s => (s, 1)))

/-- Dynamic priority for symptom-category suggestions:
4 + (3 - weight) * 0.5. -/
def dynamicPriority (weight : Nat) : ℚ := 4 + (3 - (weight : ℚ)) * 0.5

def matchesNausea (lower : String) : Bool :=
  strContains lower "nausea" || strContains lower "morning sickness" ||
    strContains lower "vomiting"

def matchesFatigue (lower : String) : Bool :=
  strContains lower "fatigue" || strContains lower "tired" ||
    strContains lower "exhaustion"

def matchesHeadache (lower : String) : Bool := strContains lower "headache"

def matchesBackPain (lower : String) : Bool :=
  strContains lower "back pain" || strContains lower "backache" ||
    strContains lower "cramps" || strContains lower "aches" ||
    strContains lower "sciatica"

def matchesInsomnia (lower : String) : Bool :=
  strContains lower "insomnia" || strContains lower "sleep" ||
    strContains lower "restless"

/-- The processedCategories set of the symptom loop. -/
structure CatFlags where
  nausea : Bool
  fatigue : Bool
  headache : Bool
  backPain : Bool
  insomnia : Bool
deriving DecidableEq

def noCatFlags : CatFlags := ⟨false, false, false, false, false⟩

/-- One guarded category push of the symptom loop body. -/
def applyCat (flagGet : CatFlags → Bool) (flagSet : CatFlags → CatFlags)
    (matched : Bool) (sug : Suggestion)
    (r : List Suggestion × CatFlags) : List Suggestion × CatFlags :=
  if flagGet r.2 = false ∧ matched = true then (r.1 ++ [sug], flagSet r.2) else r

/-- One iteration of the priority 4-5 symptom loop of getSupportSuggestions
(lines 889-945): the five category checks in source order, sharing the
processedCategories set. -/
def symptomStep (day : Nat) (flags : CatFlags) (ws : WeightedSymptom) :
    List Suggestion × CatFlags :=
  let lower := jsToLower ws.symptom
  let p := dynamicPriority ws.weight
  applyCat CatFlags.insomnia (fun f => { f with insomnia := true })
    (matchesInsomnia lower) (mkSuggestion day PoolTag.insomnia p)
    (applyCat CatFlags.backPain (fun f => { f with backPain := true })
      (matchesBackPain lower) (mkSuggestion day PoolTag.backPain p)
      (applyCat CatFlags.headache (fun f => { f with headache := true })
        (matchesHeadache lower) (mkSuggestion day PoolTag.headache p)
        (applyCat CatFlags.fatigue (fun f => { f with fatigue := true })
          (matchesFatigue lower) (mkSuggestion day PoolTag.fatigue p)
          (applyCat CatFlags.nausea (fun f => { f with nausea := true })
            (matchesNausea lower) (mkSuggestion day PoolTag.nausea p)
            ([], flags)))))

/-- The symptom loop over analysis.weightedSymptoms. -/
def symptomLoop (day : Nat) : CatFlags → List WeightedSymptom → List Suggestion
  | _, [] => []
  | flags, ws :: rest =>
    (symptomStep day flags ws).1 ++
      symptomLoop day (symptomStep day flags ws).2 rest

def isPostpartumCtx (ctx : SuggestionContext) : Bool :=
  decide (ctx.appMode = some AppMode.infancy)

/-- Priority 0: red flag symptoms. -/
def sugRedFlag (ctx : SuggestionContext) (day : Nat) : List Suggestion :=
  if (ctxAnalysis ctx).hasRedFlags = true then
    [mkSuggestion day PoolTag.redFlag 0]
  else []

/-- Priority 0.5: postpartum mode, dominant mood sad with at least 3 sad
check-ins. -/
def sugPostpartumMood (ctx : SuggestionContext) (day : Nat) : List Suggestion :=
  if isPostpartumCtx ctx = true ∧ ctx.stats.dominantMood = some Mood.sad ∧
      3 ≤ ctx.stats.moodCounts.sad then
    [mkSuggestion day PoolTag.postpartumLowMood 0.5]
  else []

/-- Priority 1: deltas show mood or energy worsening. -/
def sugTrendWorsening (ctx : SuggestionContext) (day : Nat) : List Suggestion :=
  match ctx.deltas with
  | none => []
  | some deltas =>
    if (0 < deltas.mood.sad ∧ deltas.mood.happy < 0) ∨
        (0 < deltas.energy.low ∧ deltas.energy.high < 0) then
      [mkSuggestion day PoolTag.trendWorsening 1]
    else []

/-- Priority 1.5: heavy symptom week. -/
def sugHeavy (ctx : SuggestionContext) (day : Nat) : List Suggestion :=
  if (ctxAnalysis ctx).severityLevel = SeverityLevel.heavy then
    [mkSuggestion day PoolTag.heavySymptomWeek 1.5]
  else []

/-- Priority 2: dominant mood sad. -/
def sugSadMood (ctx : SuggestionContext) (day : Nat) : List Suggestion :=
  if ctx.stats.dominantMood = some Mood.sad then
    [mkSuggestion day PoolTag.sadMood 2]
  else []

/-- Priority 3: dominant energy low. -/
def sugLowEnergy (ctx : SuggestionContext) (day : Nat) : List Suggestion :=
  if ctx.stats.dominantEnergy = some Energy.low then
    [mkSuggestion day PoolTag.lowEnergy 3]
  else []

/-- Priorities 4-5: the symptom category loop. -/
def sugSymptomCats (ctx : SuggestionContext) (day : Nat) : List Suggestion :=
  symptomLoop day noCatFlags (ctxAnalysis ctx).weightedSymptoms

/-- Priority 6: low logging consistency. -/
def sugLowConsistency (ctx : SuggestionContext) (day : Nat) : List Suggestion :=
  match ctx.daysLogged with
  | some d =>
    if d ≤ 2 ∧ 0 < ctx.stats.totalCheckins then
      [mkSuggestion day PoolTag.lowConsistency 6]
    else []
  | none => []

/-- Priority 7: upcoming appointment. -/
def sugAppointment (ctx : SuggestionContext) (day : Nat) : List Suggestion :=
  if ctx.hasUpcomingAppointment = true then
    [mkSuggestion day PoolTag.appointment 7]
  else []

/-- Pool choice of the priority 8 fallback: postpartum-week bucketed in
infancy mode (0 is falsy in the JavaScript truthiness test
postpartumWeek && postpartumWeek <= 6), else trimester-specific. -/
def fallbackTag (ctx : SuggestionContext) : PoolTag :=
  if isPostpartumCtx ctx = true then
    match ctx.postpartumWeek with
    | some w =>
      if w ≠ 0 ∧ w ≤ 6 then PoolTag.postpartumEarly
      else if w ≠ 0 ∧ w ≤ 12 then PoolTag.postpartumMid
      else PoolTag.postpartumGeneral
    | none => PoolTag.postpartumGeneral
  else
    match ctx.trimester with
    | Trimester.t1 => PoolTag.trimester1
    | Trimester.t2 => PoolTag.trimester2
    | Trimester.t3 => PoolTag.trimester3

/-- The pushes of the rules after the priority 0 red-flag rule, in source
order. -/
def sugTail (ctx : SuggestionContext) (day : Nat) : List Suggestion :=
  sugPostpartumMood ctx day ++ sugTrendWorsening ctx day ++
    sugHeavy ctx day ++ sugSadMood ctx day ++ sugLowEnergy ctx day ++
    sugSymptomCats ctx day ++ sugLowConsistency ctx day ++ sugAppointment ctx day

/-- All pushes before the two length-gated fallbacks, in source order. -/
def sugMain (ctx : SuggestionContext) (day : Nat) : List Suggestion :=
  sugRedFlag ctx day ++ sugTail ctx day

/-- Priority 8 fallback: fires when fewer than 2 suggestions exist. -/
def sugAfterFallback8 (ctx : SuggestionContext) (day : Nat) : List Suggestion :=
  if (sugMain ctx day).length < 2 then
    sugMain ctx day ++ [mkSuggestion day (fallbackTag ctx) 8]
  else sugMain ctx day

/-- Priority 9 general fallback: fires when still fewer than 2. -/
def sugWithFallbacks (ctx : SuggestionContext) (day : Nat) : List Suggestion :=
  if (sugAfterFallback8 ctx day).length < 2 then
    sugAfterFallback8 ctx day ++ [mkSuggestion day PoolTag.general 9]
  else sugAfterFallback8 ctx day

/-- Comparator model for .sort((a, b) => a.priority - b.priority). -/
def ascByPriority (a b : Suggestion) : Bool := decide (a.priority ≤ b.priority)

/-- getSupportSuggestions of weekly-summary.tsx (lines 816-1007): collect the
fired rules, sort ascending by priority, return the top 3. -/
def getSupportSuggestions (ctx : SuggestionContext) (day : Nat) : List Suggestion :=
  (jsSort ascByPriority (sugWithFallbacks ctx day)).take 3

/-! ## Specification-side helper definitions

These definitions express the vocabulary of the specification sentences
(score classification rule, severity ordering, mood enumeration order) that
the claim theorems compare against the embedded code. -/

/-- The direction rule of the spec: up if the score is positive, down if
negative, stable otherwise. -/
def specTrendDirection (score : Int) : TrendDirection :=
  if 0 < score then TrendDirection.up
  else if score < 0 then TrendDirection.down
  else TrendDirection.stable

def specMoodScore (d : PartnerInsightsDeltas) : Int := d.mood.happy - d.mood.sad

def specEnergyScore (d : PartnerInsightsDeltas) : Int := d.energy.high - d.energy.low

def specSymptomScore (d : PartnerInsightsDeltas) : Int :=
  ((d.symptoms.decreased.length + d.symptoms.gone.length : Nat) : Int) -
    ((d.symptoms.increased.length + d.symptoms.new.length : Nat) : Int)

def specOverallScore (d : PartnerInsightsDeltas) : Int :=
  specMoodScore d + specEnergyScore d + specSymptomScore d

/-- Ordering rank of the severity tiers (light < moderate < heavy). -/
def severityRank : SeverityLevel → Nat
  | SeverityLevel.light => 0
  | SeverityLevel.moderate => 1
  | SeverityLevel.heavy => 2

/-- The count of a mood category in a MoodCounts record. -/
def moodCount (mc : MoodCounts) : Mood → Nat
  | Mood.happy => mc.happy
  | Mood.neutral => mc.neutral
  | Mood.sad => mc.sad

/-- Position in the fixed enumeration order happy, neutral, sad. -/
def moodIdx : Mood → Nat
  | Mood.happy => 0
  | Mood.neutral => 1
  | Mood.sad => 2

/-- The five symptom categories of the priority 4-5 rules. -/
def symptomCategoryTags : List PoolTag :=
  [PoolTag.nausea, PoolTag.fatigue, PoolTag.headache, PoolTag.backPain,
   PoolTag.insomnia]

/-! ## Concrete inputs used by example scenarios, witnesses and
counterexamples -/

/-- Example scenario 1 of the spec: two sad check-ins with symptoms
"nausea, headache" and "nausea". -/
def claimC8Logs : List CheckinLog :=
  [⟨some "sad", some "nausea, headache", none, none, none⟩,
   ⟨some "sad", some "nausea", none, none, none⟩]

/-- A week with no recorded data. -/
def emptyWeekStats : WeekStats :=
  ⟨0, ⟨0, 0, 0⟩, none, [], [], ⟨0, 0, 0⟩, none, ⟨0, 0, 0⟩, false, none⟩

/-- Context whose raw symptoms contain the red flag "bleeding". -/
def redFlagCtx : SuggestionContext :=
  ⟨emptyWeekStats, Trimester.t2, false, none, none, some [("bleeding", 1)],
   none, none⟩

/-- Postpartum context with 3 sad check-ins out of 8 but dominant mood happy
(as the aggregator computes for 5 happy and 3 sad check-ins). -/
def c3Stats : WeekStats :=
  ⟨8, ⟨5, 0, 3⟩, some Mood.happy, [], [], ⟨0, 0, 0⟩, none, ⟨0, 0, 0⟩, false,
   none⟩

def c3Ctx : SuggestionContext :=
  ⟨c3Stats, Trimester.t1, false, none, none, none, some AppMode.infancy,
   some 8⟩

/-- Postpartum context with dominant mood sad and 4 sad check-ins. -/
def c3WitnessStats : WeekStats :=
  ⟨5, ⟨1, 0, 4⟩, some Mood.sad, [], [], ⟨0, 0, 0⟩, none, ⟨0, 0, 0⟩, false,
   none⟩

def c3WitnessCtx : SuggestionContext :=
  ⟨c3WitnessStats, Trimester.t1, false, none, none, none, some AppMode.infancy,
   some 8⟩

/-! ## Generic lemmas about the stable sort model -/

theorem jsInsert_perm (le : α → α → Bool) (x : α) (l : List α) :
    (jsInsert le x l).Perm (x :: l) := by
  induction l with
  | nil => exact List.Perm.refl _
  | cons y ys ih =>
    by_cases h : le x y = true
    · simp [jsInsert, h]
    · simp only [jsInsert, if_neg h]
      exact (ih.cons y).trans (List.Perm.swap x y ys)

theorem jsSort_perm (le : α → α → Bool) (l : List α) : (jsSort le l).Perm l := by
  induction l with
  | nil => exact List.Perm.refl _
  | cons x xs ih => exact (jsInsert_perm le x (jsSort le xs)).trans (ih.cons x)

theorem mem_jsSort {le : α → α → Bool} {l : List α} {x : α} :
    x ∈ jsSort le l ↔ x ∈ l :=
  (jsSort_perm le l).mem_iff

theorem jsSort_length (le : α → α → Bool) (l : List α) :
    (jsSort le l).length = l.length :=
  (jsSort_perm le l).length_eq

theorem jsSort_countP (le : α → α → Bool) (p : α → Bool) (l : List α) :
    (jsSort le l).countP p = l.countP p :=
  (jsSort_perm le l).countP_eq p

theorem jsInsert_pairwise (le : α → α → Bool)
    (htot : ∀ a b, le a b = true ∨ le b a = true)
    (htrans : ∀ a b c, le a b = true → le b c = true → le a c = true)
    (x : α) (l : List α) (h : l.Pairwise (fun a b => le a b = true)) :
    (jsInsert le x l).Pairwise (fun a b => le a b = true) := by
  induction l with
  | nil => simp [jsInsert]
  | cons y ys ih =>
    rcases List.pairwise_cons.mp h with ⟨hy, hys⟩
    by_cases hxy : le x y = true
    · simp only [jsInsert, if_pos hxy]
      refine List.pairwise_cons.mpr ⟨?_, h⟩
      intro z hz
      rcases List.mem_cons.mp hz with rfl | hz2
      · exact hxy
      · exact htrans x y z hxy (hy z hz2)
    · simp only [jsInsert, if_neg hxy]
      refine List.pairwise_cons.mpr ⟨?_, ih hys⟩
      intro z hz
      rcases List.mem_cons.mp ((jsInsert_perm le x ys).mem_iff.mp hz) with h2 | h2
      · rw [h2]
        rcases htot x y with h3 | h3
        · exact absurd h3 hxy
        · exact h3
      · exact hy z h2

theorem jsSort_pairwise (le : α → α → Bool)
    (htot : ∀ a b, le a b = true ∨ le b a = true)
    (htrans : ∀ a b c, le a b = true → le b c = true → le a c = true)
    (l : List α) : (jsSort le l).Pairwise (fun a b => le a b = true) := by
  induction l with
  | nil => simp [jsSort]
  | cons x xs ih => exact jsInsert_pairwise le htot htrans x (jsSort le xs) ih

theorem jsSort_cons_of_min (le : α → α → Bool) (a : α) (l : List α)
    (h : ∀ b ∈ l, le a b = true) :
    jsSort le (a :: l) = a :: jsSort le l := by
  show jsInsert le a (jsSort le l) = a :: jsSort le l
  cases hs : jsSort le l with
  | nil => rfl
  | cons y ys =>
    have hy : y ∈ l := mem_jsSort.mp (hs ▸ List.mem_cons_self y ys)
    simp [jsInsert, h y hy]

theorem mem_take_of_pairwise_countP (le : α → α → Bool)
    (htot : ∀ a b, le a b = true ∨ le b a = true) (m : List α) :
    ∀ (s : α) (k : Nat), m.Pairwise (fun a b => le a b = true) → s ∈ m →
      m.countP (fun b => le b s) ≤ k → s ∈ m.take k := by
  induction m with
  | nil => intro s k _ hmem; exact absurd hmem (List.not_mem_nil s)
  | cons b rest ih =>
    intro s k hpw hmem hcount
    have hle_bs : le b s = true := by
      rcases List.mem_cons.mp hmem with rfl | hs
      · rcases htot s s with h | h <;> exact h
      · exact (List.pairwise_cons.mp hpw).1 s hs
    have hcnt : (b :: rest).countP (fun b2 => le b2 s) =
        rest.countP (fun b2 => le b2 s) + 1 := by
      rw [List.countP_cons]
      simp [hle_bs]
    cases k with
    | zero => omega
    | succ k2 =>
      rw [List.take_succ_cons]
      rcases List.mem_cons.mp hmem with rfl | hs
      · exact List.mem_cons_self s _
      · refine List.mem_cons_of_mem b ?_
        exact ih s k2 (List.pairwise_cons.mp hpw).2 hs (by omega)

theorem mem_take_jsSort (le : α → α → Bool)
    (htot : ∀ a b, le a b = true ∨ le b a = true)
    (htrans : ∀ a b c, le a b = true → le b c = true → le a c = true)
    (l : List α) (s : α) (k : Nat) (hmem : s ∈ l)
    (hc : l.countP (fun b => le b s) ≤ k) :
    s ∈ (jsSort le l).take k := by
  refine mem_take_of_pairwise_countP le htot (jsSort le l) s k
    (jsSort_pairwise le htot htrans l) (mem_jsSort.mpr hmem) ?_
  rw [jsSort_countP]
  exact hc

/-! ## Claim C4: trend classification -/

/-- C4: for every pair of weekly deltas the trend classifier computes
moodScore = happy - sad, energyScore = high - low,
symptomScore = (decreased + gone) - (increased + new), overallScore as their
sum, and classifies each score as up when positive, down when negative,
stable otherwise. -/
theorem computeWeeklyTrends_spec (d : PartnerInsightsDeltas) :
    computeWeeklyTrends (some d) =
      some ⟨specTrendDirection (specMoodScore d),
        specTrendDirection (specEnergyScore d),
        specTrendDirection (specSymptomScore d),
        specTrendDirection (specOverallScore d)⟩ := rfl

/-! ## Claims C8 and C9: aggregation scenarios -/

/-- C8: aggregating the two-element list of example scenario 1 yields mood
counts (0, 0, 2), dominant mood sad, and the symptom entries nausea (count 2,
first) and headache (count 1, second), displayed capitalized in
topSymptoms. -/
theorem analyzeWeekLogs_scenario1 :
    (analyzeWeekLogs claimC8Logs).moodCounts = ⟨0, 0, 2⟩ ∧
    (analyzeWeekLogs claimC8Logs).dominantMood = some Mood.sad ∧
    (analyzeWeekLogs claimC8Logs).topSymptoms = ["Nausea", "Headache"] ∧
    (sortedSymptomEntries (analyzeWeekLogs claimC8Logs).symptomCounts).take 3 =
      [("nausea", 2), ("headache", 1)] := by
  decide

/-- C9: aggregating the empty check-in list yields zero total check-ins,
all-zero mood, energy and slot counts, no dominant mood or energy, and no top
symptoms. -/
theorem analyzeWeekLogs_empty :
    (analyzeWeekLogs []).totalCheckins = 0 ∧
    (analyzeWeekLogs []).moodCounts = ⟨0, 0, 0⟩ ∧
    (analyzeWeekLogs []).energyCounts = ⟨0, 0, 0⟩ ∧
    (analyzeWeekLogs []).slotCounts = ⟨0, 0, 0⟩ ∧
    (analyzeWeekLogs []).dominantMood = none ∧
    (analyzeWeekLogs []).dominantEnergy = none ∧
    (analyzeWeekLogs []).topSymptoms = [] := by
  decide

/-! ## Claim C5: severity weight lookup -/

theorem SYMPTOM_WEIGHTS_keys_nodup : (SYMPTOM_WEIGHTS.map Prod.fst).Nodup := by
  decide

theorem SYMPTOM_WEIGHTS_values :
    ∀ p ∈ SYMPTOM_WEIGHTS, p.2 = 1 ∨ p.2 = 2 ∨ p.2 = 3 := by
  decide

theorem getSymptomWeight_cases (s : String) :
    getSymptomWeight s = 1 ∨ getSymptomWeight s = 2 ∨ getSymptomWeight s = 3 := by
  simp only [getSymptomWeight]
  split
  · next q heq =>
    simpa using SYMPTOM_WEIGHTS_values q (List.mem_of_find?_eq_some heq)
  · split
    · next q heq =>
      simpa using SYMPTOM_WEIGHTS_values q (List.mem_of_find?_eq_some heq)
    · simp

/-- C5: the severity lookup returns the table weight on an exact match of
the lower-cased trimmed symptom; otherwise, when some table key of length at
least 4 is contained in the symptom, it returns the weight of such a key;
otherwise it returns the default weight 1. -/
theorem getSymptomWeight_spec (s : String) :
    (∀ p ∈ SYMPTOM_WEIGHTS, p.1 = jsTrim (jsToLower s) →
      getSymptomWeight s = p.2) ∧
    ((∀ p ∈ SYMPTOM_WEIGHTS, p.1 ≠ jsTrim (jsToLower s)) →
      ((∃ p ∈ SYMPTOM_WEIGHTS, 4 ≤ strLen p.1 ∧
          strContains (jsTrim (jsToLower s)) p.1 = true) →
        ∃ p ∈ SYMPTOM_WEIGHTS, 4 ≤ strLen p.1 ∧
          strContains (jsTrim (jsToLower s)) p.1 = true ∧
          getSymptomWeight s = p.2) ∧
      ((∀ p ∈ SYMPTOM_WEIGHTS, ¬(4 ≤ strLen p.1 ∧
          strContains (jsTrim (jsToLower s)) p.1 = true)) →
        getSymptomWeight s = 1)) := by
  constructor
  · intro p hp hkey
    cases hf : SYMPTOM_WEIGHTS.find? (fun q => q.1 == jsTrim (jsToLower s)) with
    | none =>
      exfalso
      have := List.find?_eq_none.mp hf p hp
      simp [hkey] at this
    | some q =>
      have hq1 : q.1 = jsTrim (jsToLower s) := by
        simpa using List.find?_some hf
      have hqp : q = p :=
        List.inj_on_of_nodup_map SYMPTOM_WEIGHTS_keys_nodup
          (List.mem_of_find?_eq_some hf) hp (by rw [hq1, hkey])
      rw [← hqp]
      simp [getSymptomWeight, hf]
  · intro hnone
    have hf : SYMPTOM_WEIGHTS.find? (fun q => q.1 == jsTrim (jsToLower s)) =
        none := by
      refine List.find?_eq_none.mpr ?_
      intro q hq
      simpa using hnone q hq
    constructor
    · rintro ⟨p, hp, hlen, hcon⟩
      cases hf2 : SYMPTOM_WEIGHTS.find?
          (fun q => decide (4 ≤ strLen q.1) &&
            strContains (jsTrim (jsToLower s)) q.1) with
      | none =>
        exfalso
        have := List.find?_eq_none.mp hf2 p hp
        simp [hlen, hcon] at this
      | some q =>
        have hq := List.find?_some hf2
        simp only [Bool.and_eq_true, decide_eq_true_eq] at hq
        exact ⟨q, List.mem_of_find?_eq_some hf2, hq.1, hq.2,
          by simp [getSymptomWeight, hf, hf2]⟩
    · intro hno
      have hf2 : SYMPTOM_WEIGHTS.find?
          (fun q => decide (4 ≤ strLen q.1) &&
            strContains (jsTrim (jsToLower s)) q.1) = none := by
        refine List.find?_eq_none.mpr ?_
        intro q hq
        have := hno q hq
        simp only [Bool.and_eq_true, decide_eq_true_eq]
        tauto
      simp [getSymptomWeight, hf, hf2]

/-- C5 witness: exercising the exact-match, substring-fallback and default
branches of getSymptomWeight_spec at concrete inputs. -/
theorem getSymptomWeight_spec_witness :
    getSymptomWeight "Nausea " = 2 ∧
    (∃ p ∈ SYMPTOM_WEIGHTS, 4 ≤ strLen p.1 ∧
      strContains (jsTrim (jsToLower "constant vomiting episodes")) p.1 = true ∧
      getSymptomWeight "constant vomiting episodes" = p.2) ∧
    getSymptomWeight "zzz" = 1 :=
  ⟨(getSymptomWeight_spec "Nausea ").1 ("nausea", 2) (by decide) (by decide),
   ((getSymptomWeight_spec "constant vomiting episodes").2 (by decide)).1
     ⟨("vomiting", 3), by decide, by decide, by decide⟩,
   ((getSymptomWeight_spec "zzz").2 (by decide)).2 (by decide)⟩

/-! ## Claim C6: monotone severity -/

theorem foldl_add_score (m : List WeightedSymptom) :
    ∀ n : Nat, m.foldl (fun sum s => sum + s.score) n =
      n + (m.map (fun s => s.score)).sum := by
  induction m with
  | nil => simp
  | cons x xs ih =>
    intro n
    simp only [List.foldl_cons, List.map_cons, List.sum_cons, ih]
    omega

theorem totalScore_eq (l : List (String × Nat)) :
    (analyzeSymptomSeverity l).totalScore =
      (l.map (fun p => getSymptomWeight p.1 * p.2)).sum := by
  show (jsSort descByScore (l.map mkWeighted)).foldl
      (fun sum s => sum + s.score) 0 = _
  rw [foldl_add_score, Nat.zero_add,
    ((jsSort_perm descByScore (l.map mkWeighted)).map (fun s => s.score)).sum_eq,
    List.map_map]
  rfl

theorem severityLevel_eq_step (l : List (String × Nat)) :
    (analyzeSymptomSeverity l).severityLevel =
      severityLevelOfScore (analyzeSymptomSeverity l).totalScore := rfl

theorem severityLevelOfScore_monotone (t1 t2 : Nat) (h : t1 ≤ t2) :
    severityRank (severityLevelOfScore t1) ≤
      severityRank (severityLevelOfScore t2) := by
  unfold severityLevelOfScore
  split_ifs <;> simp [severityRank] <;> omega

/-- C6: raising a single symptom count never lowers totalScore, and the
severity level is the monotone step function of totalScore: light up to 5,
moderate up to 12, heavy above. -/
theorem analyzeSymptomSeverity_monotone (pre post : List (String × Nat))
    (s : String) (c c2 : Nat) (h : c ≤ c2) :
    (analyzeSymptomSeverity (pre ++ (s, c) :: post)).totalScore ≤
      (analyzeSymptomSeverity (pre ++ (s, c2) :: post)).totalScore ∧
    severityRank (analyzeSymptomSeverity (pre ++ (s, c) :: post)).severityLevel ≤
      severityRank (analyzeSymptomSeverity (pre ++ (s, c2) :: post)).severityLevel ∧
    (∀ t : Nat, t ≤ 5 → severityLevelOfScore t = SeverityLevel.light) ∧
    (∀ t : Nat, 5 < t → t ≤ 12 → severityLevelOfScore t = SeverityLevel.moderate) ∧
    (∀ t : Nat, 12 < t → severityLevelOfScore t = SeverityLevel.heavy) ∧
    (∀ l, (analyzeSymptomSeverity l).severityLevel =
      severityLevelOfScore (analyzeSymptomSeverity l).totalScore) ∧
    (∀ t1 t2 : Nat, t1 ≤ t2 →
      severityRank (severityLevelOfScore t1) ≤
        severityRank (severityLevelOfScore t2)) := by
  have hscore : (analyzeSymptomSeverity (pre ++ (s, c) :: post)).totalScore ≤
      (analyzeSymptomSeverity (pre ++ (s, c2) :: post)).totalScore := by
    rw [totalScore_eq, totalScore_eq]
    simp only [List.map_append, List.sum_append, List.map_cons, List.sum_cons]
    have := Nat.mul_le_mul_left (getSymptomWeight s) h
    omega
  refine ⟨hscore, ?_, ?_, ?_, ?_, fun l => severityLevel_eq_step l,
    severityLevelOfScore_monotone⟩
  · rw [severityLevel_eq_step, severityLevel_eq_step]
    exact severityLevelOfScore_monotone _ _ hscore
  · intro t ht
    simp [severityLevelOfScore, ht]
  · intro t ht1 ht2
    unfold severityLevelOfScore
    split_ifs <;> first | rfl | (exfalso; omega)
  · intro t ht
    unfold severityLevelOfScore
    split_ifs <;> first | rfl | (exfalso; omega)

/-- C6 witness: concrete instance of the monotonicity theorem. -/
theorem analyzeSymptomSeverity_monotone_witness :
    (1 : Nat) ≤ 2 ∧
    (analyzeSymptomSeverity [("nausea", 1)]).totalScore ≤
      (analyzeSymptomSeverity [("nausea", 2)]).totalScore :=
  ⟨by decide, (analyzeSymptomSeverity_monotone [] [] "nausea" 1 2 (by decide)).1⟩

/-! ## Claim C7: dominant mood characterization -/

theorem forall_mood_iff (P : Mood → Prop) :
    (∀ m, P m) ↔ (P Mood.happy ∧ P Mood.neutral ∧ P Mood.sad) :=
  ⟨fun hh => ⟨hh _, hh _, hh _⟩, fun ⟨a, b, c⟩ m => by cases m <;> assumption⟩

theorem dominantPick_moodEntries (mc : MoodCounts) :
    dominantPick (moodEntries mc) =
      if 0 < mc.happy ∧ mc.neutral ≤ mc.happy ∧ mc.sad ≤ mc.happy then
        some Mood.happy
      else if 0 < mc.neutral ∧ mc.sad ≤ mc.neutral then some Mood.neutral
      else if 0 < mc.sad then some Mood.sad
      else none := by
  rcases mc with ⟨h, n, s⟩
  by_cases h1 : 0 < h <;> by_cases h2 : 0 < n <;> by_cases h3 : 0 < s <;>
    simp [dominantPick, moodEntries, descByCount, List.filter, h1, h2, h3,
      jsSort, jsInsert] <;>
    try split_ifs
  all_goals try omega
  all_goals (simp_all [jsInsert, descByCount] <;> try split_ifs) <;>
    simp_all <;> omega

theorem dominantPick_moodEntries_char (mc : MoodCounts) (m : Mood) :
    (dominantPick (moodEntries mc) = none ↔
      (mc.happy = 0 ∧ mc.neutral = 0 ∧ mc.sad = 0)) ∧
    (dominantPick (moodEntries mc) = some m ↔
      (0 < moodCount mc m ∧
       (∀ m2, moodCount mc m2 ≤ moodCount mc m) ∧
       (∀ m2, moodIdx m2 < moodIdx m → moodCount mc m2 < moodCount mc m))) := by
  rcases mc with ⟨h, n, s⟩
  rw [dominantPick_moodEntries]
  cases m <;> simp only [forall_mood_iff, moodCount, moodIdx] <;> split_ifs <;>
    simp_all <;> omega

/-- C7: for every list of check-in records, dominantMood is null exactly when
all three mood counts are zero, and otherwise it is the category with the
strictly highest count, ties resolved to the enumeration order happy,
neutral, sad (an earlier category must be beaten strictly, a later one only
equalled). -/
theorem analyzeWeekLogs_dominantMood (logs : List CheckinLog) (m : Mood) :
    ((analyzeWeekLogs logs).dominantMood = none ↔
      ((analyzeWeekLogs logs).moodCounts.happy = 0 ∧
       (analyzeWeekLogs logs).moodCounts.neutral = 0 ∧
       (analyzeWeekLogs logs).moodCounts.sad = 0)) ∧
    ((analyzeWeekLogs logs).dominantMood = some m ↔
      (0 < moodCount (analyzeWeekLogs logs).moodCounts m ∧
       (∀ m2, moodCount (analyzeWeekLogs logs).moodCounts m2 ≤
         moodCount (analyzeWeekLogs logs).moodCounts m) ∧
       (∀ m2, moodIdx m2 < moodIdx m →
         moodCount (analyzeWeekLogs logs).moodCounts m2 <
           moodCount (analyzeWeekLogs logs).moodCounts m))) :=
  dominantPick_moodEntries_char (analyzeWeekLogs logs).moodCounts m

/-! ## Lemmas about the suggestion generator -/

theorem ascByPriority_total :
    ∀ a b : Suggestion, ascByPriority a b = true ∨ ascByPriority b a = true := by
  intro a b
  simp only [ascByPriority, decide_eq_true_eq]
  exact le_total a.priority b.priority

theorem ascByPriority_trans :
    ∀ a b c : Suggestion, ascByPriority a b = true → ascByPriority b c = true →
      ascByPriority a c = true := by
  intro a b c
  simp only [ascByPriority, decide_eq_true_eq]
  exact le_trans

theorem mkSuggestion_priority (day : Nat) (tag : PoolTag) (p : ℚ) :
    (mkSuggestion day tag p).priority = p := rfl

theorem mkSuggestion_tag (day : Nat) (tag : PoolTag) (p : ℚ) :
    (mkSuggestion day tag p).tag = tag := rfl

theorem sugRedFlag_shape (ctx : SuggestionContext) (day : Nat) :
    sugRedFlag ctx day = [] ∨
      sugRedFlag ctx day = [mkSuggestion day PoolTag.redFlag 0] := by
  unfold sugRedFlag
  split_ifs <;> simp

theorem sugPostpartumMood_shape (ctx : SuggestionContext) (day : Nat) :
    sugPostpartumMood ctx day = [] ∨
      sugPostpartumMood ctx day =
        [mkSuggestion day PoolTag.postpartumLowMood 0.5] := by
  unfold sugPostpartumMood
  split_ifs <;> simp

theorem sugTrendWorsening_shape (ctx : SuggestionContext) (day : Nat) :
    sugTrendWorsening ctx day = [] ∨
      sugTrendWorsening ctx day = [mkSuggestion day PoolTag.trendWorsening 1] := by
  unfold sugTrendWorsening
  cases hd : ctx.deltas
  · exact Or.inl rfl
  · dsimp only
    split_ifs <;> simp

theorem sugHeavy_shape (ctx : SuggestionContext) (day : Nat) :
    sugHeavy ctx day = [] ∨
      sugHeavy ctx day = [mkSuggestion day PoolTag.heavySymptomWeek 1.5] := by
  unfold sugHeavy
  split_ifs <;> simp

theorem sugSadMood_shape (ctx : SuggestionContext) (day : Nat) :
    sugSadMood ctx day = [] ∨
      sugSadMood ctx day = [mkSuggestion day PoolTag.sadMood 2] := by
  unfold sugSadMood
  split_ifs <;> simp

theorem sugLowEnergy_shape (ctx : SuggestionContext) (day : Nat) :
    sugLowEnergy ctx day = [] ∨
      sugLowEnergy ctx day = [mkSuggestion day PoolTag.lowEnergy 3] := by
  unfold sugLowEnergy
  split_ifs <;> simp

theorem sugLowConsistency_shape (ctx : SuggestionContext) (day : Nat) :
    sugLowConsistency ctx day = [] ∨
      sugLowConsistency ctx day = [mkSuggestion day PoolTag.lowConsistency 6] := by
  unfold sugLowConsistency
  cases hd : ctx.daysLogged
  · exact Or.inl rfl
  · dsimp only
    split_ifs <;> simp

theorem sugAppointment_shape (ctx : SuggestionContext) (day : Nat) :
    sugAppointment ctx day = [] ∨
      sugAppointment ctx day = [mkSuggestion day PoolTag.appointment 7] := by
  unfold sugAppointment
  split_ifs <;> simp

theorem fallbackTag_cases (ctx : SuggestionContext) :
    fallbackTag ctx = PoolTag.postpartumEarly ∨
    fallbackTag ctx = PoolTag.postpartumMid ∨
    fallbackTag ctx = PoolTag.postpartumGeneral ∨
    fallbackTag ctx = PoolTag.trimester1 ∨
    fallbackTag ctx = PoolTag.trimester2 ∨
    fallbackTag ctx = PoolTag.trimester3 := by
  unfold fallbackTag
  split_ifs with hpp
  · cases hw : ctx.postpartumWeek
    · simp
    · dsimp only
      split_ifs <;> simp
  · cases ht : ctx.trimester <;> simp

theorem applyCat_mem (flagGet : CatFlags → Bool) (flagSet : CatFlags → CatFlags)
    (matched : Bool) (sug : Suggestion) (r : List Suggestion × CatFlags) :
    ∀ b ∈ (applyCat flagGet flagSet matched sug r).1, b ∈ r.1 ∨ b = sug := by
  unfold applyCat
  split_ifs <;> intro b hb <;> simp_all

theorem symptomStep_mem (day : Nat) (f : CatFlags) (ws : WeightedSymptom) :
    ∀ b ∈ (symptomStep day f ws).1,
      b.priority = dynamicPriority ws.weight ∧ b.tag ∈ symptomCategoryTags := by
  intro b hb
  simp only [symptomStep] at hb
  rcases applyCat_mem _ _ _ _ _ b hb with hb | rfl
  rotate_left
  · simp [mkSuggestion, symptomCategoryTags]
  rcases applyCat_mem _ _ _ _ _ b hb with hb | rfl
  rotate_left
  · simp [mkSuggestion, symptomCategoryTags]
  rcases applyCat_mem _ _ _ _ _ b hb with hb | rfl
  rotate_left
  · simp [mkSuggestion, symptomCategoryTags]
  rcases applyCat_mem _ _ _ _ _ b hb with hb | rfl
  rotate_left
  · simp [mkSuggestion, symptomCategoryTags]
  rcases applyCat_mem _ _ _ _ _ b hb with hb | rfl
  rotate_left
  · simp [mkSuggestion, symptomCategoryTags]
  simp at hb

theorem symptomLoop_mem (day : Nat) :
    ∀ (L : List WeightedSymptom) (f : CatFlags), ∀ b ∈ symptomLoop day f L,
      ∃ ws ∈ L, b.priority = dynamicPriority ws.weight ∧
        b.tag ∈ symptomCategoryTags := by
  intro L
  induction L with
  | nil => intro f b hb; simp [symptomLoop] at hb
  | cons ws rest ih =>
    intro f b hb
    simp only [symptomLoop, List.mem_append] at hb
    rcases hb with hb | hb
    · exact ⟨ws, List.mem_cons_self ws rest, symptomStep_mem day f ws b hb⟩
    · rcases ih _ b hb with ⟨ws2, hws2, hp⟩
      exact ⟨ws2, List.mem_cons_of_mem ws hws2, hp⟩

theorem analysis_weights (l : List (String × Nat)) :
    ∀ ws ∈ (analyzeSymptomSeverity l).weightedSymptoms,
      ws.weight = 1 ∨ ws.weight = 2 ∨ ws.weight = 3 := by
  intro ws hws
  have h2 : ws ∈ l.map mkWeighted := mem_jsSort.mp hws
  rcases List.mem_map.mp h2 with ⟨p, _, rfl⟩
  exact getSymptomWeight_cases p.1

theorem ctxAnalysis_weights (ctx : SuggestionContext) :
    ∀ ws ∈ (ctxAnalysis ctx).weightedSymptoms,
      ws.weight = 1 ∨ ws.weight = 2 ∨ ws.weight = 3 := by
  unfold ctxAnalysis
  cases ctx.rawSymptoms <;> simp only [] <;> exact analysis_weights _

theorem dynamicPriority_ge (w : Nat) (hw : w = 1 ∨ w = 2 ∨ w = 3) :
    4 ≤ dynamicPriority w := by
  rcases hw with rfl | rfl | rfl <;> norm_num [dynamicPriority]

theorem sugSymptomCats_mem (ctx : SuggestionContext) (day : Nat) :
    ∀ b ∈ sugSymptomCats ctx day,
      4 ≤ b.priority ∧ b.tag ∈ symptomCategoryTags := by
  intro b hb
  rcases symptomLoop_mem day _ _ b hb with ⟨ws, hws, hp, htag⟩
  exact ⟨hp ▸ dynamicPriority_ge ws.weight (ctxAnalysis_weights ctx ws hws), htag⟩

theorem symptomStep_nausea (day : Nat) (f : CatFlags) (ws : WeightedSymptom) :
    ((symptomStep day f ws).1.countP (fun b => decide (b.tag = PoolTag.nausea)) = 0 ∧
      (symptomStep day f ws).2.nausea = f.nausea) ∨
    (f.nausea = false ∧
      (symptomStep day f ws).1.countP (fun b => decide (b.tag = PoolTag.nausea)) = 1 ∧
      (symptomStep day f ws).2.nausea = true) := by
  simp only [symptomStep, applyCat]
  split_ifs <;> simp_all [mkSuggestion, List.countP_append, List.countP_cons]

theorem symptomStep_fatigue (day : Nat) (f : CatFlags) (ws : WeightedSymptom) :
    ((symptomStep day f ws).1.countP (fun b => decide (b.tag = PoolTag.fatigue)) = 0 ∧
      (symptomStep day f ws).2.fatigue = f.fatigue) ∨
    (f.fatigue = false ∧
      (symptomStep day f ws).1.countP (fun b => decide (b.tag = PoolTag.fatigue)) = 1 ∧
      (symptomStep day f ws).2.fatigue = true) := by
  simp only [symptomStep, applyCat]
  split_ifs <;> simp_all [mkSuggestion, List.countP_append, List.countP_cons]

theorem symptomStep_headache (day : Nat) (f : CatFlags) (ws : WeightedSymptom) :
    ((symptomStep day f ws).1.countP (fun b => decide (b.tag = PoolTag.headache)) = 0 ∧
      (symptomStep day f ws).2.headache = f.headache) ∨
    (f.headache = false ∧
      (symptomStep day f ws).1.countP (fun b => decide (b.tag = PoolTag.headache)) = 1 ∧
      (symptomStep day f ws).2.headache = true) := by
  simp only [symptomStep, applyCat]
  split_ifs <;> simp_all [mkSuggestion, List.countP_append, List.countP_cons]

theorem symptomStep_backPain (day : Nat) (f : CatFlags) (ws : WeightedSymptom) :
    ((symptomStep day f ws).1.countP (fun b => decide (b.tag = PoolTag.backPain)) = 0 ∧
      (symptomStep day f ws).2.backPain = f.backPain) ∨
    (f.backPain = false ∧
      (symptomStep day f ws).1.countP (fun b => decide (b.tag = PoolTag.backPain)) = 1 ∧
      (symptomStep day f ws).2.backPain = true) := by
  simp only [symptomStep, applyCat]
  split_ifs <;> simp_all [mkSuggestion, List.countP_append, List.countP_cons]

theorem symptomStep_insomnia (day : Nat) (f : CatFlags) (ws : WeightedSymptom) :
    ((symptomStep day f ws).1.countP (fun b => decide (b.tag = PoolTag.insomnia)) = 0 ∧
      (symptomStep day f ws).2.insomnia = f.insomnia) ∨
    (f.insomnia = false ∧
      (symptomStep day f ws).1.countP (fun b => decide (b.tag = PoolTag.insomnia)) = 1 ∧
      (symptomStep day f ws).2.insomnia = true) := by
  simp only [symptomStep, applyCat]
  split_ifs <;> simp_all [mkSuggestion, List.countP_append, List.countP_cons]

theorem symptomLoop_nausea (day : Nat) :
    ∀ (L : List WeightedSymptom) (f : CatFlags),
      (f.nausea = true →
        (symptomLoop day f L).countP (fun b => decide (b.tag = PoolTag.nausea)) = 0) ∧
      (symptomLoop day f L).countP (fun b => decide (b.tag = PoolTag.nausea)) ≤ 1 := by
  intro L
  induction L with
  | nil => intro f; simp [symptomLoop]
  | cons ws rest ih =>
    intro f
    have hrec := ih (symptomStep day f ws).2
    simp only [symptomLoop, List.countP_append]
    rcases symptomStep_nausea day f ws with ⟨hc, hflag⟩ | ⟨hf, hc, hflag⟩
    · constructor
      · intro hft
        have := hrec.1 (by rw [hflag, hft])
        omega
      · have := hrec.2
        omega
    · constructor
      · intro hft
        rw [hft] at hf
        exact absurd hf (by simp)
      · have := hrec.1 hflag
        omega

theorem symptomLoop_fatigue (day : Nat) :
    ∀ (L : List WeightedSymptom) (f : CatFlags),
      (f.fatigue = true →
        (symptomLoop day f L).countP (fun b => decide (b.tag = PoolTag.fatigue)) = 0) ∧
      (symptomLoop day f L).countP (fun b => decide (b.tag = PoolTag.fatigue)) ≤ 1 := by
  intro L
  induction L with
  | nil => intro f; simp [symptomLoop]
  | cons ws rest ih =>
    intro f
    have hrec := ih (symptomStep day f ws).2
    simp only [symptomLoop, List.countP_append]
    rcases symptomStep_fatigue day f ws with ⟨hc, hflag⟩ | ⟨hf, hc, hflag⟩
    · constructor
      · intro hft
        have := hrec.1 (by rw [hflag, hft])
        omega
      · have := hrec.2
        omega
    · constructor
      · intro hft
        rw [hft] at hf
        exact absurd hf (by simp)
      · have := hrec.1 hflag
        omega

theorem symptomLoop_headache (day : Nat) :
    ∀ (L : List WeightedSymptom) (f : CatFlags),
      (f.headache = true →
        (symptomLoop day f L).countP (fun b => decide (b.tag = PoolTag.headache)) = 0) ∧
      (symptomLoop day f L).countP (fun b => decide (b.tag = PoolTag.headache)) ≤ 1 := by
  intro L
  induction L with
  | nil => intro f; simp [symptomLoop]
  | cons ws rest ih =>
    intro f
    have hrec := ih (symptomStep day f ws).2
    simp only [symptomLoop, List.countP_append]
    rcases symptomStep_headache day f ws with ⟨hc, hflag⟩ | ⟨hf, hc, hflag⟩
    · constructor
      · intro hft
        have := hrec.1 (by rw [hflag, hft])
        omega
      · have := hrec.2
        omega
    · constructor
      · intro hft
        rw [hft] at hf
        exact absurd hf (by simp)
      · have := hrec.1 hflag
        omega

theorem symptomLoop_backPain (day : Nat) :
    ∀ (L : List WeightedSymptom) (f : CatFlags),
      (f.backPain = true →
        (symptomLoop day f L).countP (fun b => decide (b.tag = PoolTag.backPain)) = 0) ∧
      (symptomLoop day f L).countP (fun b => decide (b.tag = PoolTag.backPain)) ≤ 1 := by
  intro L
  induction L with
  | nil => intro f; simp [symptomLoop]
  | cons ws rest ih =>
    intro f
    have hrec := ih (symptomStep day f ws).2
    simp only [symptomLoop, List.countP_append]
    rcases symptomStep_backPain day f ws with ⟨hc, hflag⟩ | ⟨hf, hc, hflag⟩
    · constructor
      · intro hft
        have := hrec.1 (by rw [hflag, hft])
        omega
      · have := hrec.2
        omega
    · constructor
      · intro hft
        rw [hft] at hf
        exact absurd hf (by simp)
      · have := hrec.1 hflag
        omega

theorem symptomLoop_insomnia (day : Nat) :
    ∀ (L : List WeightedSymptom) (f : CatFlags),
      (f.insomnia = true →
        (symptomLoop day f L).countP (fun b => decide (b.tag = PoolTag.insomnia)) = 0) ∧
      (symptomLoop day f L).countP (fun b => decide (b.tag = PoolTag.insomnia)) ≤ 1 := by
  intro L
  induction L with
  | nil => intro f; simp [symptomLoop]
  | cons ws rest ih =>
    intro f
    have hrec := ih (symptomStep day f ws).2
    simp only [symptomLoop, List.countP_append]
    rcases symptomStep_insomnia day f ws with ⟨hc, hflag⟩ | ⟨hf, hc, hflag⟩
    · constructor
      · intro hft
        have := hrec.1 (by rw [hflag, hft])
        omega
      · have := hrec.2
        omega
    · constructor
      · intro hft
        rw [hft] at hf
        exact absurd hf (by simp)
      · have := hrec.1 hflag
        omega

theorem sugTail_ge (ctx : SuggestionContext) (day : Nat) :
    ∀ b ∈ sugTail ctx day, (0.5 : ℚ) ≤ b.priority := by
  intro b hb
  simp only [sugTail, List.mem_append] at hb
  rcases hb with (((((((hb | hb) | hb) | hb) | hb) | hb) | hb) | hb)
  · rcases sugPostpartumMood_shape ctx day with h | h
    · rw [h] at hb; exact absurd hb (List.not_mem_nil b)
    · rw [h, List.mem_singleton] at hb; subst hb; norm_num [mkSuggestion]
  · rcases sugTrendWorsening_shape ctx day with h | h
    · rw [h] at hb; exact absurd hb (List.not_mem_nil b)
    · rw [h, List.mem_singleton] at hb; subst hb; norm_num [mkSuggestion]
  · rcases sugHeavy_shape ctx day with h | h
    · rw [h] at hb; exact absurd hb (List.not_mem_nil b)
    · rw [h, List.mem_singleton] at hb; subst hb; norm_num [mkSuggestion]
  · rcases sugSadMood_shape ctx day with h | h
    · rw [h] at hb; exact absurd hb (List.not_mem_nil b)
    · rw [h, List.mem_singleton] at hb; subst hb; norm_num [mkSuggestion]
  · rcases sugLowEnergy_shape ctx day with h | h
    · rw [h] at hb; exact absurd hb (List.not_mem_nil b)
    · rw [h, List.mem_singleton] at hb; subst hb; norm_num [mkSuggestion]
  · have h4 := (sugSymptomCats_mem ctx day b hb).1
    linarith
  · rcases sugLowConsistency_shape ctx day with h | h
    · rw [h] at hb; exact absurd hb (List.not_mem_nil b)
    · rw [h, List.mem_singleton] at hb; subst hb; norm_num [mkSuggestion]
  · rcases sugAppointment_shape ctx day with h | h
    · rw [h] at hb; exact absurd hb (List.not_mem_nil b)
    · rw [h, List.mem_singleton] at hb; subst hb; norm_num [mkSuggestion]

theorem sugWithFallbacks_len2 (ctx : SuggestionContext) (day : Nat) :
    2 ≤ (sugWithFallbacks ctx day).length := by
  unfold sugWithFallbacks sugAfterFallback8
  split_ifs <;> simp_all [List.length_append]

theorem cat_count_main (ctx : SuggestionContext) (day : Nat) (t : PoolTag)
    (ht : t ∈ symptomCategoryTags) :
    (sugMain ctx day).countP (fun b => decide (b.tag = t)) ≤ 1 := by
  have hloop : (sugSymptomCats ctx day).countP (fun b => decide (b.tag = t)) ≤ 1 := by
    fin_cases ht
    · exact (symptomLoop_nausea day _ noCatFlags).2
    · exact (symptomLoop_fatigue day _ noCatFlags).2
    · exact (symptomLoop_headache day _ noCatFlags).2
    · exact (symptomLoop_backPain day _ noCatFlags).2
    · exact (symptomLoop_insomnia day _ noCatFlags).2
  have h1 : (sugRedFlag ctx day).countP (fun b => decide (b.tag = t)) = 0 := by
    rcases sugRedFlag_shape ctx day with h | h
    · rw [h]; rfl
    · rw [h]; fin_cases ht <;> rfl
  have h2 : (sugPostpartumMood ctx day).countP (fun b => decide (b.tag = t)) = 0 := by
    rcases sugPostpartumMood_shape ctx day with h | h
    · rw [h]; rfl
    · rw [h]; fin_cases ht <;> rfl
  have h3 : (sugTrendWorsening ctx day).countP (fun b => decide (b.tag = t)) = 0 := by
    rcases sugTrendWorsening_shape ctx day with h | h
    · rw [h]; rfl
    · rw [h]; fin_cases ht <;> rfl
  have h4 : (sugHeavy ctx day).countP (fun b => decide (b.tag = t)) = 0 := by
    rcases sugHeavy_shape ctx day with h | h
    · rw [h]; rfl
    · rw [h]; fin_cases ht <;> rfl
  have h5 : (sugSadMood ctx day).countP (fun b => decide (b.tag = t)) = 0 := by
    rcases sugSadMood_shape ctx day with h | h
    · rw [h]; rfl
    · rw [h]; fin_cases ht <;> rfl
  have h6 : (sugLowEnergy ctx day).countP (fun b => decide (b.tag = t)) = 0 := by
    rcases sugLowEnergy_shape ctx day with h | h
    · rw [h]; rfl
    · rw [h]; fin_cases ht <;> rfl
  have h7 : (sugLowConsistency ctx day).countP (fun b => decide (b.tag = t)) = 0 := by
    rcases sugLowConsistency_shape ctx day with h | h
    · rw [h]; rfl
    · rw [h]; fin_cases ht <;> rfl
  have h8 : (sugAppointment ctx day).countP (fun b => decide (b.tag = t)) = 0 := by
    rcases sugAppointment_shape ctx day with h | h
    · rw [h]; rfl
    · rw [h]; fin_cases ht <;> rfl
  unfold sugMain sugTail
  simp only [List.countP_append]
  omega

theorem sugWithFallbacks_cat_count (ctx : SuggestionContext) (day : Nat)
    (t : PoolTag) (ht : t ∈ symptomCategoryTags) :
    (sugWithFallbacks ctx day).countP (fun b => decide (b.tag = t)) ≤ 1 := by
  have hm := cat_count_main ctx day t ht
  have h8 : (List.countP (fun b => decide (b.tag = t))
      [mkSuggestion day (fallbackTag ctx) 8]) = 0 := by
    rcases fallbackTag_cases ctx with h | h | h | h | h | h <;> rw [h] <;>
      fin_cases ht <;> rfl
  have h9 : (List.countP (fun b => decide (b.tag = t))
      [mkSuggestion day PoolTag.general 9]) = 0 := by
    fin_cases ht <;> rfl
  unfold sugWithFallbacks sugAfterFallback8
  split_ifs <;> (try simp only [List.countP_append]) <;> omega

/-- C10: getSupportSuggestions always returns at least 2 suggestions: the two
fallback rules both fire below 2, and the final sort-and-take-3 preserves at
least 2. -/
theorem getSupportSuggestions_min_len (ctx : SuggestionContext) (day : Nat) :
    2 ≤ (getSupportSuggestions ctx day).length := by
  unfold getSupportSuggestions
  rw [List.length_take, jsSort_length]
  have := sugWithFallbacks_len2 ctx day
  omega

/-- C2: getSupportSuggestions returns between 1 and 3 suggestions, sorted
ascending by priority, and each of the five symptom categories contributes at
most one suggestion. -/
theorem getSupportSuggestions_spec (ctx : SuggestionContext) (day : Nat) :
    1 ≤ (getSupportSuggestions ctx day).length ∧
    (getSupportSuggestions ctx day).length ≤ 3 ∧
    List.Pairwise (fun a b : Suggestion => a.priority ≤ b.priority)
      (getSupportSuggestions ctx day) ∧
    (∀ t ∈ symptomCategoryTags,
      (getSupportSuggestions ctx day).countP (fun b => decide (b.tag = t)) ≤ 1) := by
  refine ⟨?_, ?_, ?_, ?_⟩
  · unfold getSupportSuggestions
    rw [List.length_take, jsSort_length]
    have := sugWithFallbacks_len2 ctx day
    omega
  · unfold getSupportSuggestions
    rw [List.length_take, jsSort_length]
    omega
  · have hp := jsSort_pairwise ascByPriority ascByPriority_total
      ascByPriority_trans (sugWithFallbacks ctx day)
    exact (List.Pairwise.sublist (List.take_sublist 3 _) hp).imp
      (fun hab => by simpa [ascByPriority] using hab)
  · intro t ht
    have h1 : (getSupportSuggestions ctx day).countP (fun b => decide (b.tag = t)) ≤
        (jsSort ascByPriority (sugWithFallbacks ctx day)).countP
          (fun b => decide (b.tag = t)) := by
      unfold getSupportSuggestions
      conv_rhs =>
        rw [← List.take_append_drop 3 (jsSort ascByPriority (sugWithFallbacks ctx day))]
      rw [List.countP_append]
      omega
    rw [jsSort_countP] at h1
    exact le_trans h1 (sugWithFallbacks_cat_count ctx day t ht)

/-! ## Claim C1: red-flag precedence -/

theorem sugMain_redFlag (ctx : SuggestionContext) (day : Nat)
    (h : (ctxAnalysis ctx).hasRedFlags = true) :
    sugMain ctx day = mkSuggestion day PoolTag.redFlag 0 :: sugTail ctx day := by
  unfold sugMain sugRedFlag
  rw [if_pos h]
  rfl

theorem sugWithFallbacks_redFlag (ctx : SuggestionContext) (day : Nat)
    (h : (ctxAnalysis ctx).hasRedFlags = true) :
    ∃ T, sugWithFallbacks ctx day = mkSuggestion day PoolTag.redFlag 0 :: T ∧
      ∀ b ∈ T, (0.5 : ℚ) ≤ b.priority := by
  have htail := sugTail_ge ctx day
  unfold sugWithFallbacks sugAfterFallback8
  rw [sugMain_redFlag ctx day h]
  split_ifs with h1 h2
  · refine ⟨sugTail ctx day ++
      [mkSuggestion day (fallbackTag ctx) 8] ++
      [mkSuggestion day PoolTag.general 9], by simp, ?_⟩
    intro b hb
    rcases List.mem_append.mp hb with hb | hb
    · rcases List.mem_append.mp hb with hb | hb
      · exact htail b hb
      · rw [List.mem_singleton] at hb; subst hb; norm_num [mkSuggestion]
    · rw [List.mem_singleton] at hb; subst hb; norm_num [mkSuggestion]
  · refine ⟨sugTail ctx day ++ [mkSuggestion day (fallbackTag ctx) 8],
      by simp, ?_⟩
    intro b hb
    rcases List.mem_append.mp hb with hb | hb
    · exact htail b hb
    · rw [List.mem_singleton] at hb; subst hb; norm_num [mkSuggestion]
  · exact ⟨sugTail ctx day, rfl, htail⟩

/-- C1: whenever the symptom analysis of the context has red flags, the
suggestion list starts with the red-flag provider suggestion, which is
present with priority 0, whatever the remaining context fields are. -/
theorem getSupportSuggestions_redFlag_first (ctx : SuggestionContext)
    (day : Nat) (h : (ctxAnalysis ctx).hasRedFlags = true) :
    (getSupportSuggestions ctx day).head? =
      some (mkSuggestion day PoolTag.redFlag 0) ∧
    mkSuggestion day PoolTag.redFlag 0 ∈ getSupportSuggestions ctx day ∧
    (mkSuggestion day PoolTag.redFlag 0).priority = 0 := by
  obtain ⟨T, hTeq, hTb⟩ := sugWithFallbacks_redFlag ctx day h
  have hsort : jsSort ascByPriority (sugWithFallbacks ctx day) =
      mkSuggestion day PoolTag.redFlag 0 :: jsSort ascByPriority T := by
    rw [hTeq]
    refine jsSort_cons_of_min _ _ _ (fun b hb => ?_)
    have hge := hTb b hb
    simp only [ascByPriority, mkSuggestion_priority, decide_eq_true_eq]
    linarith
  unfold getSupportSuggestions
  rw [hsort, List.take_succ_cons]
  exact ⟨rfl, List.mem_cons_self _ _, rfl⟩

/-- C1 witness: a context whose raw symptoms contain "bleeding". -/
theorem getSupportSuggestions_redFlag_first_witness :
    (ctxAnalysis redFlagCtx).hasRedFlags = true ∧
    (getSupportSuggestions redFlagCtx 0).head? =
      some (mkSuggestion 0 PoolTag.redFlag 0) :=
  ⟨by decide, (getSupportSuggestions_redFlag_first redFlagCtx 0 (by decide)).1⟩

/-! ## Claim C3: the postpartum mood-check rule

The rule fires only when the dominant mood is also sad, not merely when the
sad count reaches 3; c3Ctx (5 happy, 3 sad check-ins, dominant mood happy)
refutes the claim as stated. -/

/-- C3 counterexample: postpartum context with sad count 3 whose output
contains no postpartum mood-check suggestion and nothing at priority 0.5. -/
theorem sugPostpartumMood_counterexample :
    c3Ctx.appMode = some AppMode.infancy ∧
    3 ≤ c3Ctx.stats.moodCounts.sad ∧
    (getSupportSuggestions c3Ctx 0).map (fun b => b.tag) =
      [PoolTag.postpartumMid, PoolTag.general] ∧
    (∀ b ∈ getSupportSuggestions c3Ctx 0, b.tag ≠ PoolTag.postpartumLowMood) := by
  decide

theorem sugWithFallbacks_halfCount (ctx : SuggestionContext) (day : Nat) :
    (sugWithFallbacks ctx day).countP
      (fun b => decide (b.priority ≤ (0.5 : ℚ))) ≤ 3 := by
  have h0 : (sugRedFlag ctx day).countP
      (fun b => decide (b.priority ≤ (0.5 : ℚ))) ≤ 1 := by
    rcases sugRedFlag_shape ctx day with h | h <;> rw [h]
    · simp
    · simpa using List.countP_le_length _
  have h1 : (sugPostpartumMood ctx day).countP
      (fun b => decide (b.priority ≤ (0.5 : ℚ))) ≤ 1 := by
    rcases sugPostpartumMood_shape ctx day with h | h <;> rw [h]
    · simp
    · simpa using List.countP_le_length _
  have h2 : (sugTrendWorsening ctx day).countP
      (fun b => decide (b.priority ≤ (0.5 : ℚ))) = 0 := by
    rcases sugTrendWorsening_shape ctx day with h | h <;> rw [h]
    · rfl
    · refine List.countP_eq_zero.mpr (fun b hb => ?_)
      rw [List.mem_singleton] at hb; subst hb
      simp only [mkSuggestion_priority, decide_eq_true_eq]
      norm_num
  have h3 : (sugHeavy ctx day).countP
      (fun b => decide (b.priority ≤ (0.5 : ℚ))) = 0 := by
    rcases sugHeavy_shape ctx day with h | h <;> rw [h]
    · rfl
    · refine List.countP_eq_zero.mpr (fun b hb => ?_)
      rw [List.mem_singleton] at hb; subst hb
      simp only [mkSuggestion_priority, decide_eq_true_eq]
      norm_num
  have h4 : (sugSadMood ctx day).countP
      (fun b => decide (b.priority ≤ (0.5 : ℚ))) = 0 := by
    rcases sugSadMood_shape ctx day with h | h <;> rw [h]
    · rfl
    · refine List.countP_eq_zero.mpr (fun b hb => ?_)
      rw [List.mem_singleton] at hb; subst hb
      simp only [mkSuggestion_priority, decide_eq_true_eq]
      norm_num
  have h5 : (sugLowEnergy ctx day).countP
      (fun b => decide (b.priority ≤ (0.5 : ℚ))) = 0 := by
    rcases sugLowEnergy_shape ctx day with h | h <;> rw [h]
    · rfl
    · refine List.countP_eq_zero.mpr (fun b hb => ?_)
      rw [List.mem_singleton] at hb; subst hb
      simp only [mkSuggestion_priority, decide_eq_true_eq]
      norm_num
  have h6 : (sugSymptomCats ctx day).countP
      (fun b => decide (b.priority ≤ (0.5 : ℚ))) = 0 := by
    refine List.countP_eq_zero.mpr (fun b hb => ?_)
    have h4b := (sugSymptomCats_mem ctx day b hb).1
    simp only [decide_eq_true_eq]
    intro hle
    linarith
  have h7 : (sugLowConsistency ctx day).countP
      (fun b => decide (b.priority ≤ (0.5 : ℚ))) = 0 := by
    rcases sugLowConsistency_shape ctx day with h | h <;> rw [h]
    · rfl
    · refine List.countP_eq_zero.mpr (fun b hb => ?_)
      rw [List.mem_singleton] at hb; subst hb
      simp only [mkSuggestion_priority, decide_eq_true_eq]
      norm_num
  have h8 : (sugAppointment ctx day).countP
      (fun b => decide (b.priority ≤ (0.5 : ℚ))) = 0 := by
    rcases sugAppointment_shape ctx day with h | h <;> rw [h]
    · rfl
    · refine List.countP_eq_zero.mpr (fun b hb => ?_)
      rw [List.mem_singleton] at hb; subst hb
      simp only [mkSuggestion_priority, decide_eq_true_eq]
      norm_num
  have hf8 : (List.countP (fun b => decide (b.priority ≤ (0.5 : ℚ)))
      [mkSuggestion day (fallbackTag ctx) 8]) = 0 := by
    refine List.countP_eq_zero.mpr (fun b hb => ?_)
    rw [List.mem_singleton] at hb; subst hb
    simp only [mkSuggestion_priority, decide_eq_true_eq]
    norm_num
  have hf9 : (List.countP (fun b => decide (b.priority ≤ (0.5 : ℚ)))
      [mkSuggestion day PoolTag.general 9]) = 0 := by
    refine List.countP_eq_zero.mpr (fun b hb => ?_)
    rw [List.mem_singleton] at hb; subst hb
    simp only [mkSuggestion_priority, decide_eq_true_eq]
    norm_num
  unfold sugWithFallbacks sugAfterFallback8 sugMain sugTail
  split_ifs <;> (try simp only [List.countP_append]) <;> omega

/-- C3 (amended): in postpartum mode, when the dominant mood is sad and the
sad count is at least 3, the output contains the postpartum mood-check
suggestion with priority 0.5. -/
theorem getSupportSuggestions_postpartumMood (ctx : SuggestionContext)
    (day : Nat) (h1 : ctx.appMode = some AppMode.infancy)
    (h2 : ctx.stats.dominantMood = some Mood.sad)
    (h3 : 3 ≤ ctx.stats.moodCounts.sad) :
    mkSuggestion day PoolTag.postpartumLowMood 0.5 ∈
      getSupportSuggestions ctx day ∧
    (mkSuggestion day PoolTag.postpartumLowMood 0.5).priority = 0.5 ∧
    (mkSuggestion day PoolTag.postpartumLowMood 0.5).tag =
      PoolTag.postpartumLowMood := by
  have hpp : sugPostpartumMood ctx day =
      [mkSuggestion day PoolTag.postpartumLowMood 0.5] := by
    unfold sugPostpartumMood
    rw [if_pos ⟨by simp [isPostpartumCtx, h1], h2, h3⟩]
  have hmem : mkSuggestion day PoolTag.postpartumLowMood 0.5 ∈
      sugWithFallbacks ctx day := by
    unfold sugWithFallbacks sugAfterFallback8 sugMain sugTail
    split_ifs <;> simp [hpp]
  have hcount : (sugWithFallbacks ctx day).countP
      (fun b => ascByPriority b (mkSuggestion day PoolTag.postpartumLowMood 0.5)) ≤ 3 := by
    rw [show (fun b => ascByPriority b
        (mkSuggestion day PoolTag.postpartumLowMood 0.5)) =
      (fun b : Suggestion => decide (b.priority ≤ (0.5 : ℚ))) from rfl]
    exact sugWithFallbacks_halfCount ctx day
  exact ⟨mem_take_jsSort ascByPriority ascByPriority_total ascByPriority_trans
    _ _ 3 hmem hcount, rfl, rfl⟩

/-- C3 witness for the amended rule: postpartum context with dominant mood
sad and 4 sad check-ins. -/
theorem getSupportSuggestions_postpartumMood_witness :
    c3WitnessCtx.appMode = some AppMode.infancy ∧
    c3WitnessCtx.stats.dominantMood = some Mood.sad ∧
    3 ≤ c3WitnessCtx.stats.moodCounts.sad ∧
    mkSuggestion 0 PoolTag.postpartumLowMood 0.5 ∈
      getSupportSuggestions c3WitnessCtx 0 :=
  ⟨by decide, by decide, by decide,
   (getSupportSuggestions_postpartumMood c3WitnessCtx 0 (by decide) (by decide)
     (by decide)).1⟩

end Bloom
